import Mathlib

/-!
# Verification of the `gcp_nlp` wrapper library and its data-preparation script

A shallow embedding, in Lean 4, of the observable behaviour of the two Python
source files of this repository:

* `gcp_nlp/functions.py` — thin wrappers around the Google AutoML v1beta1
  client (`create_dataset`, `import_data`, `upload_data`, `create_model`,
  `get_operation_status`, `get_model`, `list_model_evaluations`,
  `get_model_evaluation`, `predict`).  Strings are modelled by `String`
  (with `List Char` views where character-level reasoning is needed),
  a raised `ValueError` by `Except.error`, and the request objects handed
  to the remote service by explicit request structures.  Which service
  client each remote procedure call travels through, and which client
  objects a call constructs, are modelled by an explicit effects record.
* `data_prep.py` — a pandas script.  A data frame is a list of column
  names plus a list of rows of optional cells (`none` models a missing
  value / NaN); `select`, `dropna`, series extraction and `to_csv`
  rendering (no header, no index, empty string for NaN, minimal quoting)
  are embedded directly.  The script as a whole is a transformer of a
  small file-system state.
-/

namespace GcpNlp

/-- ASCII model of Python `str.upper()`: uppercase every character. -/
def pyUpper (s : String) : String := ⟨s.data.map Char.toUpper⟩

/-- The member names of `enums.ClassificationType` of the pinned dependency
`google-cloud-automl==0.1.1` (proto enum `ClassificationType` of
`automl_v1beta1`): `CLASSIFICATION_TYPE_UNSPECIFIED = 0`, `MULTICLASS = 1`,
`MULTILABEL = 2`.  The source iterates this enum
(`for valid_type in enums.ClassificationType`) and compares against
`valid_type.name`, so all three names take part in the validity test. -/
def ClassificationTypeNames : List String :=
  ["CLASSIFICATION_TYPE_UNSPECIFIED", "MULTICLASS", "MULTILABEL"]

/-- `client.location_path(project_id, region)` of the AutoML GAPIC client:
`projects/{project}/locations/{location}` (braces shown here only as the
template's placeholders). -/
def location_path (project_id region : String) : String :=
  "projects/" ++ project_id ++ "/locations/" ++ region

/-- `client.dataset_path(project_id, region, dataset_id)`. -/
def dataset_path (project_id region dataset_id : String) : String :=
  location_path project_id region ++ "/datasets/" ++ dataset_id

/-- `client.model_path(project_id, region, model_id)`. -/
def model_path (project_id region model_id : String) : String :=
  location_path project_id region ++ "/models/" ++ model_id

/-- `client.model_evaluation_path(project_id, region, model_id, model_evaluation_id)`. -/
def model_evaluation_path (project_id region model_id model_evaluation_id : String) : String :=
  model_path project_id region model_id ++ "/modelEvaluations/" ++ model_evaluation_id

/-- The validity test of `create_dataset`:
`any(classification_type.upper() == valid_type.name for valid_type in enums.ClassificationType)`. -/
def validClassificationType (classification_type : String) : Bool :=
  ClassificationTypeNames.any (fun n => pyUpper classification_type = n)

/-- The `dataset_config` dictionary submitted by `create_dataset`, together
with the `parent` location it is submitted under. -/
structure DatasetRequest where
  parent : String
  display_name : String
  /-- the `classification_type` entry of `text_classification_dataset_metadata` -/
  classification_type : String
deriving DecidableEq, Repr

/-- `create_dataset(dataset_name, project_id, region, classification_type)`.
`Except.error` models the raised `ValueError` (no remote call is made on that
branch); `Except.ok req` models the remote `client.create_dataset` call being
issued with request `req`.  Python's in-place rebinding
`classification_type = classification_type.upper()` becomes a `let`. -/
def create_dataset (dataset_name project_id : String)
    (region : String := "us-central1")
    (classification_type : String := "MULTICLASS") : Except String DatasetRequest :=
  if validClassificationType classification_type then
    let ct := pyUpper classification_type
    Except.ok
      { parent := location_path project_id region
        display_name := dataset_name
        classification_type := ct }
  else
    Except.error "classification_type must be \"MULTICLASS\" or \"MULTILABEL\""

/-- Python's `path.split(',')`, on strings viewed as character lists:
split at every occurrence of `sep` keeping empty entries, never trimming.
On an empty string the result is `[[]]`, exactly as in Python. -/
def pySplit (sep : Char) : List Char → List (List Char)
  | [] => [[]]
  | c :: cs =>
    let r := pySplit sep cs
    if c = sep then [] :: r else (c :: r.headI) :: r.tail

/-- Re-join the pieces of a split with the separator (used to state that
`pySplit` loses and trims nothing). -/
def joinWith (sep : Char) : List (List Char) → List Char
  | [] => []
  | [x] => x
  | x :: xs => x ++ sep :: joinWith sep xs

/-- The `input_config` dictionary of `import_data`, holding
`gcs_source.input_uris`, plus the dataset resource the import is issued on. -/
structure ImportRequest where
  name : String
  input_uris : List (List Char)
deriving DecidableEq, Repr

/-- `import_data(project_id, dataset_id, path, region)`: builds the dataset
path and splits `path` on commas into `input_uris`
(`input_uris = path.split(',')`), then issues `client.import_data`.  The
request submitted remotely is returned. -/
def import_data (project_id dataset_id : String) (path : String)
    (region : String := "us-central1") : ImportRequest :=
  { name := dataset_path project_id region dataset_id
    input_uris := pySplit ',' path.data }

/-- The `model_config` dictionary of `create_model` plus its parent location. -/
structure ModelRequest where
  parent : String
  display_name : String
  dataset_id : String
deriving DecidableEq, Repr

/-- `create_model(project_id, dataset_id, model_name, region)`: builds the
project location and the model config and issues `client.create_model`. -/
def create_model (project_id dataset_id model_name : String)
    (region : String := "us-central1") : ModelRequest :=
  { parent := location_path project_id region
    display_name := model_name
    dataset_id := dataset_id }

/-- The values of the proto enum `Model.DeploymentState` of
`automl_v1beta1`: `DEPLOYMENT_STATE_UNSPECIFIED = 0`, `DEPLOYED = 1`,
`UNDEPLOYED = 2`.  A remote model reports its state as an integer of this
enum, but nothing stops the wire value from being outside the three known
ones, so the embedding keeps the whole of `Nat`. -/
def DeploymentState_DEPLOYED : Nat := 1

/-- The deployment-state branch of `get_model`:
`if model.deployment_state == enums.Model.DeploymentState.DEPLOYED:
deployment_state = 'deployed' else: deployment_state = 'undeployed'`. -/
def get_model_deployment_label (deployment_state : Nat) : String :=
  if deployment_state = DeploymentState_DEPLOYED then "deployed" else "undeployed"

/-- `get_model(project_id, model_id, region)`: the model path the remote
fetch is issued with. -/
def get_model (project_id model_id : String)
    (region : String := "us-central1") : String :=
  model_path project_id region model_id

/-- The request of `list_model_evaluations`: model path plus filter. -/
structure ListEvaluationsRequest where
  parent : String
  filter : String
deriving DecidableEq, Repr

/-- `list_model_evaluations(project_id, model_id, filter_, region)`. -/
def list_model_evaluations (project_id model_id filter_ : String)
    (region : String := "us-central1") : ListEvaluationsRequest :=
  { parent := model_path project_id region model_id
    filter := filter_ }

/-- `get_model_evaluation(project_id, model_id, model_evaluation_id, region)`:
the evaluation path the remote fetch is issued with. -/
def get_model_evaluation (project_id model_id model_evaluation_id : String)
    (region : String := "us-central1") : String :=
  model_evaluation_path project_id region model_id model_evaluation_id

/-- The payload `predict` submits: model path, text snippet and its MIME
type, and the extra params dictionary (kept abstract as an association
list). -/
structure PredictRequest where
  name : String
  content : String
  mime_type : String
  params : List (String × String)
deriving DecidableEq, Repr

/-- `predict(project_id, model_id, target_data, mime_type, region, params)`:
constructs a fresh `automl.PredictionServiceClient()`, formats the model path
with the module-level client, and issues the prediction on the fresh client.
The request submitted is returned. -/
def predict (project_id model_id target_data : String)
    (mime_type : String := "text/plain")
    (region : String := "us-central1")
    (params : List (String × String) := []) : PredictRequest :=
  { name := model_path project_id region model_id
    content := target_data
    mime_type := mime_type
    params := params }

/-- The service-client objects that appear anywhere in `functions.py`:
the module-level `automl.AutoMlClient()` created at import time, the
`automl.PredictionServiceClient()` constructed inside `predict`, and the
`gcsfs.GCSFileSystem(...)` constructed inside `upload_data`. -/
inductive ServiceClient
  | automlClient
  | predictionClient
  | gcsFileSystem
deriving DecidableEq, Repr

/-- The observable side effects of one wrapper call: the remote procedure
calls it issues, each tagged with the client object that carries it, and the
client objects it constructs while running. -/
structure OpEffects where
  remoteCalls : List (ServiceClient × String)
  clientsConstructed : List ServiceClient
deriving DecidableEq, Repr

/-- Effects of `create_dataset`: on the valid branch one `CreateDataset`
remote call through the module client; on the `ValueError` branch no remote
call at all.  (`client.location_path` is pure string formatting, not a
remote call.)  No client object is constructed in either branch. -/
def create_dataset_effects (classification_type : String) : OpEffects :=
  if validClassificationType classification_type then
    { remoteCalls := [(ServiceClient.automlClient, "CreateDataset")]
      clientsConstructed := [] }
  else
    { remoteCalls := [], clientsConstructed := [] }

/-- Effects of `import_data`: one `ImportData` call through the module
client (the subsequent `response.result()` blocks on that same operation). -/
def import_data_effects : OpEffects :=
  { remoteCalls := [(ServiceClient.automlClient, "ImportData")]
    clientsConstructed := [] }

/-- Effects of `upload_data`: constructs a fresh `gcsfs.GCSFileSystem`
and performs the `put` through it. -/
def upload_data_effects : OpEffects :=
  { remoteCalls := [(ServiceClient.gcsFileSystem, "put")]
    clientsConstructed := [ServiceClient.gcsFileSystem] }

/-- Effects of `create_model`: one `CreateModel` call through the module client. -/
def create_model_effects : OpEffects :=
  { remoteCalls := [(ServiceClient.automlClient, "CreateModel")]
    clientsConstructed := [] }

/-- Effects of `get_operation_status`: one `GetOperation` call through the
module client's transport (`client.transport._operations_client`). -/
def get_operation_status_effects : OpEffects :=
  { remoteCalls := [(ServiceClient.automlClient, "GetOperation")]
    clientsConstructed := [] }

/-- Effects of `get_model`: one `GetModel` call through the module client. -/
def get_model_effects : OpEffects :=
  { remoteCalls := [(ServiceClient.automlClient, "GetModel")]
    clientsConstructed := [] }

/-- Effects of `list_model_evaluations`. -/
def list_model_evaluations_effects : OpEffects :=
  { remoteCalls := [(ServiceClient.automlClient, "ListModelEvaluations")]
    clientsConstructed := [] }

/-- Effects of `get_model_evaluation`. -/
def get_model_evaluation_effects : OpEffects :=
  { remoteCalls := [(ServiceClient.automlClient, "GetModelEvaluation")]
    clientsConstructed := [] }

/-- Effects of `predict`: constructs a fresh `PredictionServiceClient`
(`prediction_client = automl.PredictionServiceClient()`) and issues the
`Predict` call through it, not through the module client (which only
formats the model path). -/
def predict_effects : OpEffects :=
  { remoteCalls := [(ServiceClient.predictionClient, "Predict")]
    clientsConstructed := [ServiceClient.predictionClient] }

end GcpNlp

namespace DataPrep

/-- A cell of a pandas data frame: `none` models a missing value (NaN). -/
abbrev Cell := Option String

/-- A pandas `DataFrame`: named columns over rows of cells.  Rows are kept
positional; a cell is addressed through the position of its column name. -/
structure DataFrame where
  cols : List String
  rows : List (List Cell)
deriving DecidableEq, Repr

/-- The cell of row `row` in column `name`, given the frame's column list
(`none` when the column is absent or the row too short, cases the script
never hits on its input file). -/
def getCell (cols : List String) (row : List Cell) (name : String) : Cell :=
  match cols.indexOf? name with
  | some i => row.getD i none
  | none => none

/-- Column projection `df[[n1, ..., nk]]`: keeps the named columns, in the
order in which the selection lists them. -/
def select (df : DataFrame) (names : List String) : DataFrame :=
  { cols := names
    rows := df.rows.map (fun r => names.map (fun n => getCell df.cols r n)) }

/-- `DataFrame.dropna()`: drops every row holding at least one missing value. -/
def dropna (df : DataFrame) : DataFrame :=
  { cols := df.cols
    rows := df.rows.filter (fun r => r.all Option.isSome) }

/-- Attribute access `df.name`: the column as a series, one cell per row,
in row order, with no filtering. -/
def seriesOf (df : DataFrame) (name : String) : List Cell :=
  df.rows.map (fun r => getCell df.cols r name)

/-- Does pandas `to_csv` (default `QUOTE_MINIMAL`) need to quote this field? -/
def needsQuoting (s : String) : Bool :=
  s.data.any (fun c => c = ',' || c = '"' || c = '\n' || c = '\r')

/-- Double every `"` inside a quoted CSV field. -/
def escapeQuotes (s : String) : String :=
  ⟨s.data.foldr (fun c acc => if c = '"' then '"' :: '"' :: acc else c :: acc) []⟩

/-- Render one cell as `to_csv` does: NaN as the empty string (default
`na_rep`), other fields quoted only when they hold a separator, quote or
line break. -/
def renderField (c : Cell) : String :=
  match c with
  | none => ""
  | some s => if needsQuoting s then "\"" ++ escapeQuotes s ++ "\"" else s

/-- Comma-join the rendered fields of one row. -/
def joinComma : List String → String
  | [] => ""
  | [x] => x
  | x :: xs => x ++ "," ++ joinComma xs

/-- One CSV line per row, `\n`-terminated. -/
def renderRow (r : List Cell) : String :=
  joinComma (r.map renderField) ++ "\n"

/-- Concatenate the rendered lines in order (the file is written front to
back). -/
def concatAll : List String → String
  | [] => ""
  | s :: ss => s ++ concatAll ss

/-- `df.to_csv(..., index=False, header=False)`: the file content, one line
per row, no header line, no index column. -/
def frame_to_csv (df : DataFrame) : String :=
  concatAll (df.rows.map renderRow)

/-- `series.to_csv(..., index=False, header=False)`: one line per entry. -/
def series_to_csv (s : List Cell) : String :=
  concatAll (s.map (fun c => renderField c ++ "\n"))

/-- `test_data = original_data[['cleaned_hm', 'ground_truth_category']].dropna()`. -/
def test_data (original_data : DataFrame) : DataFrame :=
  dropna (select original_data ["cleaned_hm", "ground_truth_category"])

/-- `text_only = original_data.cleaned_hm` — note: no `dropna` on this line. -/
def text_only (original_data : DataFrame) : List Cell :=
  seriesOf original_data "cleaned_hm"

/-- What a file of the local working tree holds: a parsed CSV table (as
`pd.read_csv` yields it) or raw text bytes (as `to_csv` writes them). -/
inductive Content
  | frame (df : DataFrame)
  | text (s : String)
deriving DecidableEq, Repr

/-- The local file system seen by the script: path to content. -/
def FileSystem : Type := String → Option Content

/-- Write (create or overwrite) one file. -/
def writeFile (fs : FileSystem) (path : String) (content : Content) : FileSystem :=
  fun p => if p = path then some content else fs p

/-- `pd.read_csv(path)`: succeeds exactly on a present table-valued file. -/
def read_csv (fs : FileSystem) (path : String) : Option DataFrame :=
  match fs path with
  | some (Content.frame df) => some df
  | _ => none

/-- The whole of `data_prep.py` as a file-system transformer: read
`happydb/cleaned_hm.csv`, write the dropna-ed (text, label) frame to
`happydb/test_data.csv` and the unfiltered text series to
`happydb/text_only.csv`, both header-free.  `none` models the script
crashing because the input file is unreadable. -/
def data_prep_run (fs : FileSystem) : Option FileSystem :=
  (read_csv fs "happydb/cleaned_hm.csv").map (fun original_data =>
    writeFile
      (writeFile fs "happydb/test_data.csv"
        (Content.text (frame_to_csv (test_data original_data))))
      "happydb/text_only.csv"
      (Content.text (series_to_csv (text_only original_data))))

/-- Modelled from the spec's words (claim C2): a label+text export whose
label column precedes the text column.  Used only to contrast with the
source's `test_data`, which selects `['cleaned_hm', 'ground_truth_category']`
— text first. -/
def test_data_label_first (original_data : DataFrame) : DataFrame :=
  dropna (select original_data ["ground_truth_category", "cleaned_hm"])

/-- Modelled from the spec's words (claim C3): a text-only export with its
own dropna, keeping exactly the rows whose text cell is non-null.  Used only
to contrast with the source's `text_only`, which filters nothing. -/
def text_only_dropna (original_data : DataFrame) : List Cell :=
  (seriesOf original_data "cleaned_hm").filter Option.isSome

/-- A one-row instance of the input file, with the spec's own example data:
text "great day", label "affection". -/
def exHappyDf : DataFrame :=
  { cols := ["cleaned_hm", "ground_truth_category"]
    rows := [[some "great day", some "affection"]] }

/-- An instance whose single row has a missing text cell and a present
label cell. -/
def exNullTextDf : DataFrame :=
  { cols := ["cleaned_hm", "ground_truth_category"]
    rows := [[none, some "bonds"]] }

/-- A file system holding only the input file `happydb/cleaned_hm.csv`. -/
def exFs0 : FileSystem := fun p =>
  if p = "happydb/cleaned_hm.csv" then some (Content.frame exHappyDf) else none

/-- The file system `exFs0` after one run of the script. -/
def exFs1 : FileSystem :=
  writeFile
    (writeFile exFs0 "happydb/test_data.csv"
      (Content.text (frame_to_csv (test_data exHappyDf))))
    "happydb/text_only.csv"
    (Content.text (series_to_csv (text_only exHappyDf)))

end DataPrep

section Lemmas

open GcpNlp DataPrep

/-- `pySplit` always yields at least one entry (Python's `split` does too). -/
theorem pySplit_ne_nil (sep : Char) (s : List Char) : pySplit sep s ≠ [] := by
  cases s with
  | nil => simp [pySplit]
  | cons c cs => simp only [pySplit]; split <;> simp

/-- The number of entries `pySplit` yields is the number of separator
occurrences plus one. -/
theorem pySplit_length (sep : Char) (s : List Char) :
    (pySplit sep s).length = s.count sep + 1 := by
  induction s with
  | nil => simp [pySplit]
  | cons c cs ih =>
    obtain ⟨h, t, hr⟩ := List.exists_cons_of_ne_nil (pySplit_ne_nil sep cs)
    simp only [pySplit]
    rw [hr] at ih ⊢
    by_cases hc : c = sep <;> simp [List.count_cons, hc] at ih ⊢ <;> omega

/-- Re-joining the entries of `pySplit` with the separator restores the
input exactly: nothing is trimmed and nothing but `sep` is split on. -/
theorem joinWith_pySplit (sep : Char) (s : List Char) :
    joinWith sep (pySplit sep s) = s := by
  induction s with
  | nil => simp [pySplit, joinWith]
  | cons c cs ih =>
    obtain ⟨h, t, hr⟩ := List.exists_cons_of_ne_nil (pySplit_ne_nil sep cs)
    simp only [pySplit]
    rw [hr] at ih ⊢
    by_cases hc : c = sep
    · subst hc
      rw [if_pos rfl]
      simpa [joinWith] using ih
    · rw [if_neg hc]
      cases t with
      | nil =>
        simp [joinWith] at ih ⊢
        exact ih
      | cons t1 ts =>
        simp [joinWith] at ih ⊢
        simp [ih]

/-- No entry `pySplit` yields contains the separator. -/
theorem pySplit_no_sep (sep : Char) (s : List Char) :
    ∀ e ∈ pySplit sep s, sep ∉ e := by
  induction s with
  | nil =>
    intro e he
    simp [pySplit] at he
    simp [he]
  | cons c cs ih =>
    obtain ⟨h, t, hr⟩ := List.exists_cons_of_ne_nil (pySplit_ne_nil sep cs)
    rw [hr] at ih
    intro e he
    simp only [pySplit] at he
    rw [hr] at he
    by_cases hc : c = sep
    · rw [if_pos hc] at he
      rcases List.mem_cons.mp he with he | he
      · simp [he]
      · exact ih e he
    · rw [if_neg hc] at he
      simp only [List.headI, List.tail_cons] at he
      rcases List.mem_cons.mp he with he | he
      · subst he
        intro hmem
        rcases List.mem_cons.mp hmem with hmem | hmem
        · exact hc hmem.symm
        · exact ih h (List.mem_cons_self h t) hmem
      · exact ih e (List.mem_cons_of_mem h he)

/-- Filtering a mapped list equals mapping the filtered list. -/
theorem filter_map_comm {α β : Type} (p : β → Bool) (f : α → β) (l : List α) :
    (l.map f).filter p = (l.filter (fun a => p (f a))).map f := by
  induction l with
  | nil => rfl
  | cons a l ih =>
    by_cases h : p (f a) <;> simp [List.filter_cons, h, ih]

/-- A two-column row renders as first field, comma, second field, newline. -/
theorem renderRow_pair (a b : Cell) :
    renderRow [a, b] = renderField a ++ "," ++ renderField b ++ "\n" := rfl

end Lemmas

section Claims

open GcpNlp DataPrep

/-- C1 (evidence of the divergence): the mode string
`"classification_type_unspecified"` is not case-insensitively equal to either
of the two allowed values — its uppercasing is neither `"MULTICLASS"` nor
`"MULTILABEL"` — yet `create_dataset` does not raise a `ValueError` on it:
the validity test passes (the iterated enum also contains
`CLASSIFICATION_TYPE_UNSPECIFIED`) and the remote create-dataset call is
issued, contradicting the function's own docstring and error message. -/
theorem claim_C1_unspecified_reaches_remote_call :
    pyUpper "classification_type_unspecified" ≠ "MULTICLASS" ∧
    pyUpper "classification_type_unspecified" ≠ "MULTILABEL" ∧
    (create_dataset "my_dataset" "my_project" "us-central1"
        "classification_type_unspecified").isOk = true ∧
    (create_dataset_effects "classification_type_unspecified").remoteCalls =
      [(ServiceClient.automlClient, "CreateDataset")] := by
  refine ⟨by decide, by decide, by decide, by decide⟩

/-- C4: `get_model`'s derived deployment-state label is `"deployed"` exactly
when the remote enumeration value is the `DEPLOYED` constant, and
`"undeployed"` for every other numeric value, including values unknown to
this code. -/
theorem claim_C4_deployment_label (s : Nat) :
    (get_model_deployment_label s = "deployed" ↔ s = DeploymentState_DEPLOYED) ∧
    (s ≠ DeploymentState_DEPLOYED → get_model_deployment_label s = "undeployed") := by
  unfold get_model_deployment_label
  by_cases h : s = DeploymentState_DEPLOYED <;> simp [h]

/-- Witness for C4 at the concrete state value 7, one unknown to the code. -/
theorem claim_C4_deployment_label_witness :
    get_model_deployment_label 7 = "undeployed" :=
  (claim_C4_deployment_label 7).2 (by decide)

/-- C5: `import_data` splits its path string on commas and nothing else:
the source list has exactly (number of commas + 1) entries, re-joining the
entries with commas restores the path character for character (so no entry
is trimmed), and no entry contains a comma. -/
theorem claim_C5_import_split (project_id dataset_id region path_s : String) :
    ((import_data project_id dataset_id path_s region).input_uris).length =
      path_s.data.count ',' + 1 ∧
    joinWith ',' ((import_data project_id dataset_id path_s region).input_uris) =
      path_s.data ∧
    ∀ e ∈ (import_data project_id dataset_id path_s region).input_uris, ',' ∉ e :=
  ⟨pySplit_length ',' path_s.data, joinWith_pySplit ',' path_s.data,
    pySplit_no_sep ',' path_s.data⟩

/-- Witness for C5 on a concrete two-entry path string. -/
theorem claim_C5_import_split_witness :
    ((import_data "proj" "ds" "gs://b/a.csv,gs://b/b.csv" "us-central1").input_uris).length =
      ("gs://b/a.csv,gs://b/b.csv" : String).data.count ',' + 1 ∧
    ',' ∉ ("gs://b/a.csv" : String).data :=
  ⟨(claim_C5_import_split "proj" "ds" "us-central1" "gs://b/a.csv,gs://b/b.csv").1,
    (claim_C5_import_split "proj" "ds" "us-central1" "gs://b/a.csv,gs://b/b.csv").2.2
      ("gs://b/a.csv" : String).data (by decide)⟩

/-- C6: for every mode string case-insensitively equal to an allowed value,
`create_dataset` succeeds and the classification type placed in the request
metadata is the uppercase normalization of the given string. -/
theorem claim_C6_mode_uppercased (dataset_name project_id region ct : String)
    (h : pyUpper ct = "MULTICLASS" ∨ pyUpper ct = "MULTILABEL") :
    create_dataset dataset_name project_id region ct =
      Except.ok
        { parent := location_path project_id region
          display_name := dataset_name
          classification_type := pyUpper ct } := by
  have hv : validClassificationType ct = true := by
    rcases h with h | h <;>
      simp [validClassificationType, ClassificationTypeNames, h]
  simp [create_dataset, hv]

/-- Witness for C6 at the mixed-case string "MultiClass". -/
theorem claim_C6_mode_uppercased_witness :
    create_dataset "my_dataset" "my_project" "us-central1" "MultiClass" =
      Except.ok
        { parent := location_path "my_project" "us-central1"
          display_name := "my_dataset"
          classification_type := pyUpper "MultiClass" } :=
  claim_C6_mode_uppercased "my_dataset" "my_project" "us-central1" "MultiClass"
    (Or.inl (by decide))

/-- C9: for each of the seven wrappers that take a region parameter, calling
with the region argument omitted (so that the Python default applies) is the
same call as passing the string "us-central1" explicitly. -/
theorem claim_C9_region_default
    (dataset_name project_id dataset_id path_s model_name filter_ model_id
      model_evaluation_id target_data mime_type : String) :
    create_dataset dataset_name project_id =
      create_dataset dataset_name project_id "us-central1" ∧
    import_data project_id dataset_id path_s =
      import_data project_id dataset_id path_s "us-central1" ∧
    create_model project_id dataset_id model_name =
      create_model project_id dataset_id model_name "us-central1" ∧
    get_model project_id model_id =
      get_model project_id model_id "us-central1" ∧
    list_model_evaluations project_id model_id filter_ =
      list_model_evaluations project_id model_id filter_ "us-central1" ∧
    get_model_evaluation project_id model_id model_evaluation_id =
      get_model_evaluation project_id model_id model_evaluation_id "us-central1" ∧
    predict project_id model_id target_data mime_type =
      predict project_id model_id target_data mime_type "us-central1" :=
  ⟨rfl, rfl, rfl, rfl, rfl, rfl, rfl⟩

/-- C2 (counterexample): on the one-row input with text "great day" and
label "affection", the export line written by the script is
"great day,affection" — the text column precedes the label column — and not
the label-first line the claim describes (shown here through the
spec-modelled label-first export). -/
theorem claim_C2_counterexample :
    frame_to_csv (test_data exHappyDf) = "great day,affection\n" ∧
    frame_to_csv (test_data_label_first exHappyDf) = "affection,great day\n" ∧
    ("great day,affection\n" : String) ≠ "affection,great day\n" := by
  refine ⟨by decide, by decide, by decide⟩

/-- C2 (amended): the label+text export consists of (text, label) pairs —
for each surviving input row the text column precedes the label column —
with input row order preserved and no header row: the file is exactly the
concatenation, in input order, of one line "text,label" per row surviving
the dropna. -/
theorem claim_C2_text_then_label (df : DataFrame) :
    frame_to_csv (test_data df) =
      concatAll ((df.rows.filter (fun r =>
          (getCell df.cols r "cleaned_hm").isSome &&
          (getCell df.cols r "ground_truth_category").isSome)).map (fun r =>
        renderField (getCell df.cols r "cleaned_hm") ++ "," ++
        renderField (getCell df.cols r "ground_truth_category") ++ "\n")) := by
  obtain ⟨cols, rows⟩ := df
  simp only
  induction rows with
  | nil => rfl
  | cons r rs ih =>
    simp only [frame_to_csv, test_data, dropna, select, List.map_cons, List.map_nil,
      List.filter_cons, List.all_cons, List.all_nil, Bool.and_true] at ih ⊢
    by_cases h1 : (getCell cols r "cleaned_hm").isSome <;>
      by_cases h2 : (getCell cols r "ground_truth_category").isSome <;>
        simp [h1, h2, concatAll, renderRow, joinComma, List.map_nil, ih]

/-- C3 (counterexample): a row whose text cell is null still appears in the
text-only export (the script applies no dropna to that series): on a one-row
input with a null text cell the text-only export has one entry — an empty
line — while under the claim it would have none (shown here through the
spec-modelled filtered export). -/
theorem claim_C3_counterexample :
    text_only exNullTextDf = [none] ∧
    text_only_dropna exNullTextDf = [] ∧
    ([none] : List Cell) ≠ [] ∧
    series_to_csv (text_only exNullTextDf) = "\n" := by
  refine ⟨by decide, by decide, by decide, by decide⟩

/-- C3 (amended): a row with a null value in either the text column or the
label column does not appear in the label+text export; and every input row
appears in the text-only export — the text-only series is written without
any filtering, one entry per input row, in input order. -/
theorem claim_C3_null_rows (df : DataFrame) :
    (∀ r ∈ (test_data df).rows, r.all Option.isSome = true) ∧
    (∀ i : Nat, (text_only df)[i]? =
      (df.rows[i]?).map (fun r => getCell df.cols r "cleaned_hm")) := by
  constructor
  · intro r hr
    simp only [test_data, dropna] at hr
    exact (List.mem_filter.mp hr).2
  · intro i
    simp [text_only, seriesOf, List.getElem?_map]

/-- Witness for C3 on the concrete one-row frame: the surviving export row
has both cells non-null. -/
theorem claim_C3_null_rows_witness :
    List.all [some "great day", some "affection"] Option.isSome = true :=
  (claim_C3_null_rows exHappyDf).1 [some "great day", some "affection"] (by decide)

/-- C7 (counterexample): the prediction remote call does not travel through
the process-wide module client: `predict` constructs a client of its own and
issues its RPC through that fresh prediction client. -/
theorem claim_C7_counterexample :
    (ServiceClient.predictionClient, "Predict") ∈ predict_effects.remoteCalls ∧
    ServiceClient.predictionClient ≠ ServiceClient.automlClient ∧
    predict_effects.clientsConstructed ≠ [] := by
  refine ⟨by decide, by decide, by decide⟩

/-- C7 (amended): every operation except `predict` and `upload_data` issues
its remote calls only through the module-level AutoML client and constructs
no client instance of its own; `predict` constructs one fresh
prediction-service client per call and issues its RPC through it, and
`upload_data` constructs one fresh GCS file-system handle per call and
performs its upload through it. -/
theorem claim_C7_client_usage (ct : String) :
    ((create_dataset_effects ct).remoteCalls =
        [(ServiceClient.automlClient, "CreateDataset")] ∨
      (create_dataset_effects ct).remoteCalls = []) ∧
    (create_dataset_effects ct).clientsConstructed = [] ∧
    import_data_effects.remoteCalls = [(ServiceClient.automlClient, "ImportData")] ∧
    import_data_effects.clientsConstructed = [] ∧
    create_model_effects.remoteCalls = [(ServiceClient.automlClient, "CreateModel")] ∧
    create_model_effects.clientsConstructed = [] ∧
    get_operation_status_effects.remoteCalls = [(ServiceClient.automlClient, "GetOperation")] ∧
    get_operation_status_effects.clientsConstructed = [] ∧
    get_model_effects.remoteCalls = [(ServiceClient.automlClient, "GetModel")] ∧
    get_model_effects.clientsConstructed = [] ∧
    list_model_evaluations_effects.remoteCalls =
      [(ServiceClient.automlClient, "ListModelEvaluations")] ∧
    list_model_evaluations_effects.clientsConstructed = [] ∧
    get_model_evaluation_effects.remoteCalls =
      [(ServiceClient.automlClient, "GetModelEvaluation")] ∧
    get_model_evaluation_effects.clientsConstructed = [] ∧
    predict_effects.remoteCalls = [(ServiceClient.predictionClient, "Predict")] ∧
    predict_effects.clientsConstructed = [ServiceClient.predictionClient] ∧
    upload_data_effects.remoteCalls = [(ServiceClient.gcsFileSystem, "put")] ∧
    upload_data_effects.clientsConstructed = [ServiceClient.gcsFileSystem] := by
  refine ⟨?_, ?_, rfl, rfl, rfl, rfl, rfl, rfl, rfl, rfl, rfl, rfl, rfl, rfl,
    rfl, rfl, rfl, rfl⟩
  · unfold create_dataset_effects
    split <;> simp
  · unfold create_dataset_effects
    split <;> rfl

/-- C8: the data-preparation script is idempotent on the file system: if one
run turns state `fs` into state `fs'`, a second run on `fs'` reproduces
`fs'` exactly (the input file is untouched by the two output writes, and
rewriting the same outputs changes nothing). -/
theorem claim_C8_idempotent (fs fs' : FileSystem)
    (h : data_prep_run fs = some fs') :
    data_prep_run fs' = some fs' := by
  unfold data_prep_run at h ⊢
  rw [Option.map_eq_some'] at h
  obtain ⟨df, hread, hw⟩ := h
  subst hw
  have hin1 : ("happydb/cleaned_hm.csv" : String) ≠ "happydb/test_data.csv" := by decide
  have hin2 : ("happydb/cleaned_hm.csv" : String) ≠ "happydb/text_only.csv" := by decide
  have hread2 :
      read_csv
        (writeFile
          (writeFile fs "happydb/test_data.csv"
            (Content.text (frame_to_csv (test_data df))))
          "happydb/text_only.csv"
          (Content.text (series_to_csv (text_only df))))
        "happydb/cleaned_hm.csv" = some df := by
    unfold read_csv at hread ⊢
    simp only [writeFile, hin1, hin2, if_false]
    exact hread
  rw [hread2, Option.map_some']
  refine congrArg some (funext fun p => ?_)
  by_cases hp1 : p = "happydb/text_only.csv"
  · simp [writeFile, hp1]
  · by_cases hp2 : p = "happydb/test_data.csv" <;> simp [writeFile, hp1, hp2]

/-- Witness for C8: a run on the concrete post-run state `exFs1` reproduces
`exFs1`. -/
theorem claim_C8_idempotent_witness : data_prep_run exFs1 = some exFs1 :=
  claim_C8_idempotent exFs0 exFs1 rfl

/-- C10: the text-only export is one entry per input row with no filtering:
the series has exactly the input's row count, and the rendered file is the
concatenation, in input order, of one line per input row holding that row's
text cell (null text cells included, rendered as empty lines). -/
theorem claim_C10_text_only_unfiltered (df : DataFrame) :
    (text_only df).length = df.rows.length ∧
    series_to_csv (text_only df) =
      concatAll (df.rows.map (fun r =>
        renderField (getCell df.cols r "cleaned_hm") ++ "\n")) := by
  constructor
  · simp [text_only, seriesOf]
  · simp [series_to_csv, text_only, seriesOf, List.map_map, Function.comp_def]

end Claims
